import Mathlib

/-!
Verification of the provider abstraction and comparison-dispatch layer of the
promptdotmodel repository. The definitions below are a shallow embedding of
the TypeScript sources: `types.ts`, `base-provider.ts`, the provider
implementations (`anthropic-provider.ts`, `openai-provider.ts`,
`openrouter-provider.ts`), `provider-registry.ts`, and the evaluation run in
`src/app/page.tsx`. JavaScript numbers are embedded as `ℚ` (the price table
and cost arithmetic are exact decimals), strings as `String` / `List Char`,
promises as explicit `Except` values, and the instrumentation `Bool` attached
to a completion records whether the adapter's external call was actually
issued (it is `true` exactly on the code paths that reach `fetch` /
`provider.complete`).
-/

namespace PromptModel

/-- Embeds `types.ts` `ModelCapabilities`. -/
structure ModelCapabilities where
  vision : Bool
  functionCalling : Bool
  systemMessages : Bool
  maxImages : Option Nat := none
deriving DecidableEq

/-- Embeds `types.ts` `ModelMetadata`. Prices are per 1000 tokens, embedded as `ℚ`. -/
structure ModelMetadata where
  id : String
  name : String
  provider : String
  maxTokens : Nat
  inputCostPer1kTokens : ℚ
  outputCostPer1kTokens : ℚ
  supportsStreaming : Bool
  capabilities : ModelCapabilities
deriving DecidableEq

/-- Embeds `types.ts` `ProviderConfig`. -/
structure ProviderConfig where
  apiKey : Option String := none
  baseUrl : Option String := none
  timeout : Option Nat := none
deriving DecidableEq

/-- Embeds `types.ts` `CompletionParams`. -/
structure CompletionParams where
  prompt : String
  maxTokens : Option Nat := none
  temperature : Option ℚ := none
  topP : Option ℚ := none
  systemMessage : Option String := none
deriving DecidableEq

/-- Embeds `types.ts` `CompletionResponse` (the free-form metadata map is embedded
as an association list). -/
structure CompletionResponse where
  content : String
  model : String
  inputTokens : Nat
  outputTokens : Nat
  duration : Nat
  cost : ℚ
  metadata : List (String × String) := []
deriving DecidableEq

/-- Embeds `types.ts` `ProviderError` (message plus the optional `code` field). -/
structure ProviderError where
  message : String
  code : Option String := none
deriving DecidableEq

/-- JavaScript truthiness of an optional string (`!x` is true for both
`undefined` and the empty string). -/
def strTruthy : Option String → Bool
  | none => false
  | some s => !s.isEmpty

/-- One provider adapter. `completeFn` is the adapter's `complete` method as
a black box (the per-adapter guard pipelines are embedded separately below);
`config` is the mutable `this.config` of `BaseAIProvider`. -/
structure Provider where
  name : String
  displayName : String
  requiresApiKey : Bool
  models : List ModelMetadata
  config : ProviderConfig
  completeFn : String → CompletionParams → Except ProviderError CompletionResponse

/-- Embeds `BaseAIProvider.getModel`: `this.models.find(m => m.id === modelId)`. -/
def getModel (p : Provider) (modelId : String) : Option ModelMetadata :=
  p.models.find? (fun m => m.id == modelId)

/-- Embeds `BaseAIProvider.isConfigured`: requires-key providers are configured iff
`!!this.config.apiKey`. -/
def isConfigured (p : Provider) : Bool :=
  if p.requiresApiKey then strTruthy p.config.apiKey else true

/-- Embeds `BaseAIProvider.initialize`: stores `{...config}` FIRST, then throws a
`ProviderError` when a required API key is missing (falsy). Returns the
updated provider together with the raised error, if any. -/
def initProvider (p : Provider) (c : ProviderConfig) : Provider × Option ProviderError :=
  let p1 := { p with config := c }
  if p.requiresApiKey && !(strTruthy c.apiKey) then
    (p1, some ⟨"API key is required for " ++ p.displayName, none⟩)
  else
    (p1, none)

/-- Embeds `BaseAIProvider.estimateCost`: looks the model up and computes
`inputTokens/1000 * inputPrice + outputTokens/1000 * outputPrice`; throws
`ProviderError` for an unknown id. -/
def estimateCost (p : Provider) (modelId : String) (inputTokens outputTokens : ℚ) :
    Except ProviderError ℚ :=
  match getModel p modelId with
  | none => .error ⟨"Model not found: " ++ modelId, none⟩
  | some m =>
      .ok (inputTokens / 1000 * m.inputCostPer1kTokens
        + outputTokens / 1000 * m.outputCostPer1kTokens)

/-- Embeds `ProviderRegistry`: the `Map<ProviderName, AIProvider>` embedded as an
insertion-ordered association list (JS `Map` iterates in insertion order). -/
structure Registry where
  providers : List (String × Provider)

/-- The `Map.set` semantics of `registerProvider`: replace in place when the name
exists, append otherwise. -/
def registerProvider (reg : Registry) (n : String) (p : Provider) : Registry :=
  if reg.providers.any (fun q => q.1 == n) then
    ⟨reg.providers.map (fun q => if q.1 == n then (n, p) else q)⟩
  else
    ⟨reg.providers ++ [(n, p)]⟩

def findModelAux : List (String × Provider) → String → Option (Provider × ModelMetadata)
  | [], _ => none
  | q :: rest, modelId =>
      match getModel q.2 modelId with
      | some m => some (q.2, m)
      | none => findModelAux rest modelId

/-- Embeds `ProviderRegistry.findModel`: scans providers in registration order and
returns the first `{provider, model}` whose catalog contains the id. -/
def findModel (reg : Registry) (modelId : String) : Option (Provider × ModelMetadata) :=
  findModelAux reg.providers modelId

/-- One slot of `compareModels`' result:
`{ modelId, response, error? }` (with `response: null` on failure). -/
structure CompareOutcome where
  modelId : String
  response : Option CompletionResponse
  error : Option ProviderError
deriving DecidableEq

/-- The per-id closure of `ProviderRegistry.compareModels`, instrumented: the
`Bool` is `true` iff `provider.complete` was invoked for this id. A failed
`findModel` throws `Model not found` inside the per-id `try`, which is caught
into the outcome without any completion call. -/
def compareOutcomeTraced (reg : Registry) (params : CompletionParams) (modelId : String) :
    CompareOutcome × Bool :=
  match findModel reg modelId with
  | none => (⟨modelId, none, some ⟨"Model not found: " ++ modelId, none⟩⟩, false)
  | some pm =>
      match pm.1.completeFn modelId params with
      | .ok r => (⟨modelId, some r, none⟩, true)
      | .error e => (⟨modelId, none, some e⟩, true)

def compareModelsTraced (reg : Registry) (modelIds : List String) (params : CompletionParams) :
    List (CompareOutcome × Bool) :=
  modelIds.map (compareOutcomeTraced reg params)

/-- The outcome slot for one id, forgetting the instrumentation. -/
def compareOutcome (reg : Registry) (params : CompletionParams) (modelId : String) :
    CompareOutcome :=
  (compareOutcomeTraced reg params modelId).1

/-- Embeds `ProviderRegistry.compareModels`: `Promise.all(modelIds.map(async id => ...))`.
Each promise settles to an outcome (errors are caught per slot), and
`Promise.all` keeps input order, so the embedding is the order-preserving map.
The method body performs no validation of `modelIds` or `params` and never
rejects at call level. -/
def compareModels (reg : Registry) (modelIds : List String) (params : CompletionParams) :
    List CompareOutcome :=
  (compareModelsTraced reg modelIds params).map (fun x => x.1)

/-- Embeds `ProviderRegistry.configureProvider` as a state transformer: looks the
provider up by name (throwing `Provider not found` when absent) and runs
`initialize` on it, replacing it in the map. Returns the raised error, if any. -/
def configureProviderRun (reg : Registry) (n : String) (c : ProviderConfig) :
    Registry × Option ProviderError :=
  match reg.providers.find? (fun q => q.1 == n) with
  | none => (reg, some ⟨"Provider not found: " ++ n, none⟩)
  | some q =>
      let pr := initProvider q.2 c
      (⟨reg.providers.map (fun w => if w.1 == n then (n, pr.1) else w)⟩, pr.2)

/-- Embeds `ProviderRegistry.configureProviders`: every entry of the config record is
mapped to a `configureProvider` call (so every configuration is attempted and
every config store happens), and the rejections are collected in entry order.
`Promise.all` surfaces only the head of that list — see
`configureProvidersRaised`. -/
def configureProvidersRun (reg : Registry) (configs : List (String × ProviderConfig)) :
    Registry × List ProviderError :=
  configs.foldl
    (fun acc nc =>
      let step := configureProviderRun acc.1 nc.1 nc.2
      (step.1, acc.2 ++ step.2.toList))
    (reg, [])

/-- The single error `configureProviders` rejects with: `Promise.all`
propagates the first rejection only. -/
def configureProvidersRaised (reg : Registry) (configs : List (String × ProviderConfig)) :
    Option ProviderError :=
  (configureProvidersRun reg configs).2.head?

/-- JavaScript `String.prototype.replace` with a global literal-text regex:
scan left to right, replace each leftmost non-overlapping occurrence of `pat`,
and never rescan the substituted replacement text. (`$`-escapes in the
replacement string are not modelled; the judge templates substitute plain
prompt/response text.) -/
def replaceAll (pat rep : List Char) (s : List Char) : List Char :=
  match s with
  | [] => []
  | c :: rest =>
      if h : pat ≠ [] ∧ pat.isPrefixOf (c :: rest) then
        rep ++ replaceAll pat rep ((c :: rest).drop pat.length)
      else
        c :: replaceAll pat rep rest
termination_by s.length
decreasing_by
  · simp only [List.length_drop, List.length_cons]
    exact Nat.sub_lt (Nat.succ_pos _) (List.length_pos.mpr h.1)
  · simp

/-- The `/\x7binput\x7d/g` placeholder token. -/
def inputTok : List Char := ['{', 'i', 'n', 'p', 'u', 't', '}']

/-- The `/\x7boutput\x7d/g` placeholder token. -/
def outputTok : List Char := ['{', 'o', 'u', 't', 'p', 'u', 't', '}']

/-- Embeds `page.tsx` `handleRunEval`: the judge prompt is
`judgeConfig.prompt.replace(/\x7binput\x7d/g, prompt).replace(/\x7boutput\x7d/g, responseText)`. -/
def buildJudgePrompt (template promptText responseText : String) : String :=
  ⟨replaceAll outputTok responseText.data (replaceAll inputTok promptText.data template.data)⟩

/-- Embeds `page.tsx` `ModelResult` (the per-target row of the comparison table). -/
structure ModelResult where
  model : ModelMetadata
  response : Option CompletionResponse
  error : Option String
  isLoading : Bool

/-- Embeds `page.tsx` `EvalResult`. -/
structure EvalResult where
  evalId : String
  modelId : String
  result : Option String
  isLoading : Bool
  error : Option String
deriving DecidableEq

/-- Embeds `add-eval-dialog.tsx` `LLMJudgeConfig` (the fields `handleRunEval` reads). -/
structure LLMJudgeConfig where
  name : String
  prompt : String
  model : Option ModelMetadata
deriving DecidableEq

/-- The judge completion for one target in `handleRunEval`: builds the judge
prompt from the template (`\x7boutput\x7d` is filled with
`modelResult.response?.content || ''`) and issues one judge call, catching its
failure into the outcome. `judgeCall` abstracts the `/api/complete` fetch (or
the dummy branch) as a function of the synthesized judge prompt. -/
def evalOutcome (cfg : LLMJudgeConfig) (promptText : String)
    (judgeCall : String → Except String CompletionResponse) (mr : ModelResult) : EvalResult :=
  let judgePrompt := buildJudgePrompt cfg.prompt promptText ((mr.response.map (fun r => r.content)).getD "")
  match judgeCall judgePrompt with
  | .ok resp => ⟨cfg.name, mr.model.id, some resp.content, false, none⟩
  | .error e => ⟨cfg.name, mr.model.id, none, false, some e⟩

/-- Embeds `handleRunEval`'s dispatch list: `modelResults.filter(r => r.response !== null).map(...)`
awaited with `Promise.all` (order preserving). Targets without a response are
filtered out before any judge call. -/
def runEvalOutcomes (cfg : LLMJudgeConfig) (promptText : String)
    (judgeCall : String → Except String CompletionResponse) (modelResults : List ModelResult) :
    List EvalResult :=
  (modelResults.filter (fun r => r.response.isSome)).map (evalOutcome cfg promptText judgeCall)

/-- The final `setEvalResults` of `handleRunEval`: entries of this eval are
dropped from the previous state and replaced by the settled outcomes (which
exist only for targets that had a response). -/
def runEvalFinal (cfg : LLMJudgeConfig) (prev : List EvalResult) (promptText : String)
    (judgeCall : String → Except String CompletionResponse) (modelResults : List ModelResult) :
    List EvalResult :=
  prev.filter (fun r => r.evalId != cfg.name) ++ runEvalOutcomes cfg promptText judgeCall modelResults

/-- The `process.env` state as read by the adapters' `complete` guards. -/
structure Env where
  anthropicKey : Option String := none
  openaiKey : Option String := none
  openrouterKey : Option String := none

/-- The `/api/complete` route handler viewed from an adapter: an opaque
fallible call. -/
abbrev RelayFn := String → CompletionParams → Except ProviderError CompletionResponse

/-- Embeds `AnthropicProvider.complete` (`anthropic-provider.ts`, the fetch-backed
variant): guard at lines 248-250 throws the not-configured error only when
`isConfigured()` is false AND `process.env.ANTHROPIC_API_KEY` AND
`process.env.OPENROUTER_API_KEY` are all falsy; then a model lookup, then the
relay fetch with the cost recomputed from the model's price table
(`estimateCost` cannot fail here because the model was just found). The `Bool`
records whether the relay call was issued. -/
def anthropicComplete (env : Env) (p : Provider) (relay : RelayFn)
    (modelId : String) (params : CompletionParams) :
    Except ProviderError CompletionResponse × Bool :=
  if !(isConfigured p) && !(strTruthy env.anthropicKey) && !(strTruthy env.openrouterKey) then
    (.error ⟨"Anthropic provider is not configured. Please provide an API key.", none⟩, false)
  else
    match getModel p modelId with
    | none => (.error ⟨"Model not found: " ++ modelId, some "MODEL_NOT_FOUND"⟩, false)
    | some m =>
        match relay modelId params with
        | .error e => (.error ⟨"Anthropic API error: " ++ e.message, some "API_ERROR"⟩, true)
        | .ok data =>
            (.ok { data with cost := (data.inputTokens : ℚ) / 1000 * m.inputCostPer1kTokens
              + (data.outputTokens : ℚ) / 1000 * m.outputCostPer1kTokens }, true)

/-- Embeds `OpenAIProvider.complete`: same pipeline with the guard reading
`process.env.OPENAI_API_KEY` / `process.env.OPENROUTER_API_KEY`. -/
def openaiComplete (env : Env) (p : Provider) (relay : RelayFn)
    (modelId : String) (params : CompletionParams) :
    Except ProviderError CompletionResponse × Bool :=
  if !(isConfigured p) && !(strTruthy env.openaiKey) && !(strTruthy env.openrouterKey) then
    (.error ⟨"OpenAI provider is not configured. Please provide an API key.", none⟩, false)
  else
    match getModel p modelId with
    | none => (.error ⟨"Model not found: " ++ modelId, some "MODEL_NOT_FOUND"⟩, false)
    | some m =>
        match relay modelId params with
        | .error e => (.error ⟨"OpenAI API error: " ++ e.message, some "API_ERROR"⟩, true)
        | .ok data =>
            (.ok { data with cost := (data.inputTokens : ℚ) / 1000 * m.inputCostPer1kTokens
              + (data.outputTokens : ℚ) / 1000 * m.outputCostPer1kTokens }, true)

/-- Embeds `OpenRouterProvider.complete`: guard reads `process.env.OPENROUTER_API_KEY`. -/
def openrouterComplete (env : Env) (p : Provider) (relay : RelayFn)
    (modelId : String) (params : CompletionParams) :
    Except ProviderError CompletionResponse × Bool :=
  if !(isConfigured p) && !(strTruthy env.openrouterKey) then
    (.error ⟨"OpenRouter provider is not configured. Please provide an API key.", none⟩, false)
  else
    match getModel p modelId with
    | none => (.error ⟨"Model not found: " ++ modelId, some "MODEL_NOT_FOUND"⟩, false)
    | some m =>
        match relay modelId params with
        | .error e => (.error ⟨"OpenRouter API error: " ++ e.message, some "API_ERROR"⟩, true)
        | .ok data =>
            (.ok { data with cost := (data.inputTokens : ℚ) / 1000 * m.inputCostPer1kTokens
              + (data.outputTokens : ℚ) / 1000 * m.outputCostPer1kTokens }, true)

/-- A judge prompt template split into literal text and placeholder tokens. -/
inductive Seg where
  | lit : List Char → Seg
  | inp : Seg
  | outp : Seg

/-- Flatten a segment list back into template text. -/
def renderSegs : List Seg → List Char
  | [] => []
  | .lit l :: rest => l ++ renderSegs rest
  | .inp :: rest => inputTok ++ renderSegs rest
  | .outp :: rest => outputTok ++ renderSegs rest

/-- The template after the first pass only (`\x7binput\x7d` filled in). -/
def midSegs (p : List Char) : List Seg → List Char
  | [] => []
  | .lit l :: rest => l ++ midSegs p rest
  | .inp :: rest => p ++ midSegs p rest
  | .outp :: rest => outputTok ++ midSegs p rest

/-- The intended simultaneous substitution: every `\x7binput\x7d` token
becomes the prompt, every `\x7boutput\x7d` token the response text. -/
def substSegs (p r : List Char) : List Seg → List Char
  | [] => []
  | .lit l :: rest => l ++ substSegs p r rest
  | .inp :: rest => p ++ substSegs p r rest
  | .outp :: rest => r ++ substSegs p r rest

/-- A literal segment is benign when it cannot fabricate a placeholder start. -/
def SegOk : Seg → Prop
  | .lit l => '{' ∉ l
  | .inp => True
  | .outp => True

instance : DecidablePred SegOk := fun s =>
  match s with
  | .lit l => decidable_of_iff ('{' ∉ l) Iff.rfl
  | .inp => .isTrue trivial
  | .outp => .isTrue trivial

/-- The `anthropic-provider.ts` catalog entry for Claude 3.5 Sonnet. -/
def claude35Sonnet : ModelMetadata :=
  ⟨"claude-3-5-sonnet-20241022", "Claude 3.5 Sonnet", "anthropic", 200000,
    0.003, 0.015, true, ⟨true, true, true, some 20⟩⟩

/-- The `anthropic-provider.ts` catalog entry for Claude 3 Opus. -/
def claude3Opus : ModelMetadata :=
  ⟨"claude-3-opus-20240229", "Claude 3 Opus", "anthropic", 200000,
    0.015, 0.075, true, ⟨true, true, true, some 20⟩⟩

/-- The `anthropic-provider.ts` catalog entry for Claude 3 Haiku. -/
def claude3Haiku : ModelMetadata :=
  ⟨"claude-3-haiku-20240307", "Claude 3 Haiku", "anthropic", 200000,
    0.00025, 0.00125, true, ⟨true, true, true, some 20⟩⟩

/-- The `openai-provider.ts` catalog entry for GPT-4o. -/
def gpt4o : ModelMetadata :=
  ⟨"gpt-4o", "GPT-4o", "openai", 128000,
    0.005, 0.015, true, ⟨true, true, true, some 10⟩⟩

/-- A freshly constructed `AnthropicProvider` (empty config; `completeFn` is
irrelevant to the guard pipeline, which is embedded by `anthropicComplete`). -/
def anthropicProvider : Provider :=
  { name := "anthropic", displayName := "Anthropic", requiresApiKey := true
    models := [claude35Sonnet, claude3Opus, claude3Haiku], config := {}
    completeFn := fun _ _ => .error ⟨"unused", none⟩ }

/-- A freshly constructed `OpenAIProvider`. -/
def openaiProvider : Provider :=
  { name := "openai", displayName := "OpenAI", requiresApiKey := true
    models := [gpt4o], config := {}
    completeFn := fun _ _ => .error ⟨"unused", none⟩ }

/-- A canned successful completion used as a relay/test response. -/
def stubResponse : CompletionResponse :=
  ⟨"R1", "m1", 10, 20, 5, 0, []⟩

/-- Test double: a key-free provider owning model `m1` whose calls succeed. -/
def provSucc : Provider :=
  { name := "succ", displayName := "Succ", requiresApiKey := false
    models := [⟨"m1", "Model One", "succ", 1000, 0.001, 0.002, true, ⟨false, false, true, none⟩⟩]
    config := {}
    completeFn := fun _ _ => .ok stubResponse }

/-- Test double: a key-free provider owning model `m2` whose calls reject. -/
def provFail : Provider :=
  { name := "fail", displayName := "Fail", requiresApiKey := false
    models := [⟨"m2", "Model Two", "fail", 1000, 0.001, 0.002, true, ⟨false, false, true, none⟩⟩]
    config := {}
    completeFn := fun _ _ => .error ⟨"network error", none⟩ }

/-- Test double owning the deliberately overlapping id `dup` (first one). -/
def provDupFirst : Provider :=
  { name := "dupA", displayName := "Dup A", requiresApiKey := false
    models := [⟨"dup", "Dup from A", "dupA", 1000, 0.001, 0.002, true, ⟨false, false, true, none⟩⟩]
    config := {}
    completeFn := fun _ _ => .ok stubResponse }

/-- Test double owning the deliberately overlapping id `dup` (second one). -/
def provDupSecond : Provider :=
  { name := "dupB", displayName := "Dup B", requiresApiKey := false
    models := [⟨"dup", "Dup from B", "dupB", 1000, 0.003, 0.004, true, ⟨false, false, true, none⟩⟩]
    config := {}
    completeFn := fun _ _ => .ok stubResponse }

/-- A small registry of the two test doubles, in registration order. -/
def testRegistry : Registry := ⟨[("succ", provSucc), ("fail", provFail)]⟩

/-- A registry where two later providers both expose the id `dup`. -/
def regDup : Registry :=
  ⟨[("succ", provSucc), ("dupA", provDupFirst), ("dupB", provDupSecond)]⟩

/-- A plain completion request. -/
def testParams : CompletionParams := ⟨"Explain recursion", none, none, none, none⟩

/-- A request whose prompt is whitespace only (empty after trimming). -/
def blankParams : CompletionParams := ⟨"   ", none, none, none, none⟩

/-- The `process.env` state with `ANTHROPIC_API_KEY` set and nothing else. -/
def envAnthropicSet : Env := ⟨some "sk-ant-test", none, none⟩

/-- A relay that always succeeds with the canned response. -/
def relayOk : RelayFn := fun _ _ => .ok stubResponse

/-- The Anthropic adapter still holding a previously stored config. -/
def anthropicOld : Provider :=
  { anthropicProvider with config := ⟨some "old-anthropic-key", none, none⟩ }

/-- The OpenAI adapter still holding a previously stored config. -/
def openaiOld : Provider :=
  { openaiProvider with config := ⟨some "old-openai-key", none, none⟩ }

/-- Registry of the two configured adapters, in registration order. -/
def regABold : Registry := ⟨[("anthropic", anthropicOld), ("openai", openaiOld)]⟩

/-- A batch config leaving out both API keys (both configurations fail). -/
def cfgsBothBad : List (String × ProviderConfig) :=
  [("anthropic", ⟨none, none, none⟩), ("openai", ⟨none, none, none⟩)]

/-- A batch config where only the first configuration fails. -/
def cfgsOneBad : List (String × ProviderConfig) :=
  [("anthropic", ⟨none, none, none⟩), ("openai", ⟨some "sk-live", none, none⟩)]

/-- Catalog entry of `provSucc` (used as an eval target). -/
def m1Meta : ModelMetadata :=
  ⟨"m1", "Model One", "succ", 1000, 0.001, 0.002, true, ⟨false, false, true, none⟩⟩

/-- Catalog entry of `provFail` (used as an eval target). -/
def m2Meta : ModelMetadata :=
  ⟨"m2", "Model Two", "fail", 1000, 0.001, 0.002, true, ⟨false, false, true, none⟩⟩

/-- An eval target that already has a response. -/
def targetWith : ModelResult := ⟨m1Meta, some stubResponse, none, false⟩

/-- An eval target still awaiting its response. -/
def targetWithout : ModelResult := ⟨m2Meta, none, none, false⟩

/-- An `llm-judge` eval config whose template repeats `\x7boutput\x7d`. -/
def judgeCfg : LLMJudgeConfig := ⟨"accuracy", "Q:{input} A:{output} {output}", none⟩

/-- A judge call that always returns a score. -/
def judgeOk : String → Except String CompletionResponse :=
  fun _ => .ok ⟨"Score: 8/10", "judge-model", 5, 5, 1, 0, []⟩

/-- The spec's test template `Q:\x7binput\x7d A:\x7boutput\x7d \x7boutput\x7d`
as a segment list. -/
def judgeTemplateSegs : List Seg :=
  [.lit "Q:".data, .inp, .lit " A:".data, .outp, .lit " ".data, .outp]


/-- The error one `configureProvider` call contributes, computed from the
original registry alone: `Provider not found` for an unknown name, otherwise
whatever `initialize` raises for that provider and config. -/
def expectedConfigErr (reg : Registry) (n : String) (c : ProviderConfig) :
    Option ProviderError :=
  match reg.providers.find? (fun q => q.1 == n) with
  | none => some ⟨"Provider not found: " ++ n, none⟩
  | some q => (initProvider q.2 c).2

theorem replaceAll_nil (pat rep : List Char) : replaceAll pat rep [] = [] := by
  rw [replaceAll]

theorem replaceAll_pos (pat rep : List Char) (c : Char) (rest : List Char)
    (h : pat ≠ [] ∧ pat.isPrefixOf (c :: rest)) :
    replaceAll pat rep (c :: rest) = rep ++ replaceAll pat rep ((c :: rest).drop pat.length) := by
  rw [replaceAll]
  simp only [dif_pos h]

theorem replaceAll_neg (pat rep : List Char) (c : Char) (rest : List Char)
    (h : ¬(pat ≠ [] ∧ pat.isPrefixOf (c :: rest))) :
    replaceAll pat rep (c :: rest) = c :: replaceAll pat rep rest := by
  rw [replaceAll]
  simp only [dif_neg h]

theorem isPrefixOf_append_self (pat rest : List Char) :
    pat.isPrefixOf (pat ++ rest) = true := by
  induction pat with
  | nil => simp [List.isPrefixOf]
  | cons c cs ih => simp [List.isPrefixOf, ih]

/-- A whole occurrence of the pattern is replaced and scanning resumes after
it, without rescanning the replacement text. -/
theorem replaceAll_tok (pat rep rest : List Char) (h : pat ≠ []) :
    replaceAll pat rep (pat ++ rest) = rep ++ replaceAll pat rep rest := by
  match pat, h with
  | c :: cs, _ =>
    rw [List.cons_append, replaceAll_pos (c :: cs) rep c (cs ++ rest)
      ⟨by simp, by rw [← List.cons_append]; exact isPrefixOf_append_self _ _⟩]
    rw [← List.cons_append, List.drop_left]

/-- Characters that cannot start a match are copied verbatim: if the pattern
starts with `c0` and `lit` avoids `c0`, scanning walks straight across `lit`. -/
theorem replaceAll_append_avoid (c0 : Char) (pt rep lit rest : List Char)
    (hl : c0 ∉ lit) :
    replaceAll (c0 :: pt) rep (lit ++ rest) = lit ++ replaceAll (c0 :: pt) rep rest := by
  induction lit with
  | nil => simp
  | cons c cs ih =>
    have hc : c ≠ c0 := fun hcc => hl (by simp [hcc])
    have hnp : ¬((c0 :: pt) ≠ [] ∧ (c0 :: pt).isPrefixOf (c :: (cs ++ rest))) := by
      intro hcon
      have := hcon.2
      simp only [List.isPrefixOf, Bool.and_eq_true, beq_iff_eq] at this
      exact hc this.1.symm
    rw [List.cons_append, replaceAll_neg _ _ _ _ hnp, ih (fun hm => hl (List.mem_cons_of_mem _ hm)),
      List.cons_append]

/-- Scanning for `\x7binput\x7d` walks straight across a `\x7boutput\x7d`
token: the two placeholder tokens cannot overlap. -/
theorem replaceAll_inputTok_over_outputTok (rep rest : List Char) :
    replaceAll inputTok rep (outputTok ++ rest) = outputTok ++ replaceAll inputTok rep rest := by
  have h1 : ¬(inputTok ≠ [] ∧ inputTok.isPrefixOf ('{' :: (['o', 'u', 't', 'p', 'u', 't', '}'] ++ rest))) := by
    intro hcon
    have := hcon.2
    simp only [inputTok, List.isPrefixOf, List.cons_append, Bool.and_eq_true, beq_iff_eq] at this
    exact absurd this.2.1 (by decide)
  have h2 : '{' ∉ (['o', 'u', 't', 'p', 'u', 't', '}'] : List Char) := by decide
  show replaceAll inputTok rep ('{' :: (['o', 'u', 't', 'p', 'u', 't', '}'] ++ rest)) = _
  rw [replaceAll_neg _ _ _ _ h1]
  rw [show inputTok = '{' :: ['i', 'n', 'p', 'u', 't', '}'] from rfl]
  rw [replaceAll_append_avoid '{' _ _ _ _ h2]
  rfl


theorem replaceAll_input_render (segs : List Seg) (p : List Char)
    (hs : ∀ s ∈ segs, SegOk s) :
    replaceAll inputTok p (renderSegs segs) = midSegs p segs := by
  induction segs with
  | nil => simp [renderSegs, midSegs, replaceAll_nil]
  | cons s rest ih =>
    have hrest : ∀ t ∈ rest, SegOk t := fun t ht => hs t (List.mem_cons_of_mem _ ht)
    cases s with
    | lit l =>
        have hl : '{' ∉ l := hs (.lit l) (List.mem_cons_self _ _)
        rw [renderSegs, midSegs,
          show inputTok = '{' :: ['i', 'n', 'p', 'u', 't', '}'] from rfl,
          replaceAll_append_avoid '{' _ _ _ _ hl]
        rw [show ('{' :: ['i', 'n', 'p', 'u', 't', '}'] : List Char) = inputTok from rfl, ih hrest]
    | inp =>
        rw [renderSegs, midSegs, replaceAll_tok _ _ _ (by simp [inputTok]), ih hrest]
    | outp =>
        rw [renderSegs, midSegs, replaceAll_inputTok_over_outputTok, ih hrest]

theorem replaceAll_output_mid (segs : List Seg) (p r : List Char)
    (hs : ∀ s ∈ segs, SegOk s) (hp : '{' ∉ p) :
    replaceAll outputTok r (midSegs p segs) = substSegs p r segs := by
  induction segs with
  | nil => simp [midSegs, substSegs, replaceAll_nil]
  | cons s rest ih =>
    have hrest : ∀ t ∈ rest, SegOk t := fun t ht => hs t (List.mem_cons_of_mem _ ht)
    cases s with
    | lit l =>
        have hl : '{' ∉ l := hs (.lit l) (List.mem_cons_self _ _)
        rw [midSegs, substSegs,
          show outputTok = '{' :: ['o', 'u', 't', 'p', 'u', 't', '}'] from rfl,
          replaceAll_append_avoid '{' _ _ _ _ hl]
        rw [show ('{' :: ['o', 'u', 't', 'p', 'u', 't', '}'] : List Char) = outputTok from rfl, ih hrest]
    | inp =>
        rw [midSegs, substSegs,
          show outputTok = '{' :: ['o', 'u', 't', 'p', 'u', 't', '}'] from rfl,
          replaceAll_append_avoid '{' _ _ _ _ hp]
        rw [show ('{' :: ['o', 'u', 't', 'p', 'u', 't', '}'] : List Char) = outputTok from rfl, ih hrest]
    | outp =>
        rw [midSegs, substSegs, replaceAll_tok _ _ _ (by simp [outputTok]), ih hrest]

theorem compareOutcome_modelId (reg : Registry) (params : CompletionParams) (modelId : String) :
    (compareOutcome reg params modelId).modelId = modelId := by
  unfold compareOutcome compareOutcomeTraced
  cases findModel reg modelId with
  | none => rfl
  | some pm =>
      cases hc : pm.1.completeFn modelId params <;> simp [hc]

theorem compareOutcomeTraced_snd (reg : Registry) (params : CompletionParams) (modelId : String) :
    (compareOutcomeTraced reg params modelId).2 = (findModel reg modelId).isSome := by
  unfold compareOutcomeTraced
  cases findModel reg modelId with
  | none => rfl
  | some pm =>
      cases hc : pm.1.completeFn modelId params <;> simp [hc]

theorem compareOutcomeTraced_not_found (reg : Registry) (params : CompletionParams)
    (modelId : String) (h : findModel reg modelId = none) :
    compareOutcomeTraced reg params modelId =
      (⟨modelId, none, some ⟨"Model not found: " ++ modelId, none⟩⟩, false) := by
  unfold compareOutcomeTraced
  rw [h]

theorem compareModels_getElem? (reg : Registry) (modelIds : List String)
    (params : CompletionParams) (i : ℕ) :
    (compareModels reg modelIds params)[i]? = (modelIds[i]?).map (compareOutcome reg params) := by
  simp [compareModels, compareModelsTraced, compareOutcome, List.getElem?_map, Option.map_map]
  rfl

theorem compareModels_length (reg : Registry) (modelIds : List String)
    (params : CompletionParams) :
    (compareModels reg modelIds params).length = modelIds.length := by
  simp [compareModels, compareModelsTraced]

theorem compareModelsTraced_getElem? (reg : Registry) (modelIds : List String)
    (params : CompletionParams) (i : ℕ) :
    (compareModelsTraced reg modelIds params)[i]? =
      (modelIds[i]?).map (compareOutcomeTraced reg params) := by
  simp [compareModelsTraced, List.getElem?_map]

theorem configureProviderRun_err (reg : Registry) (n : String) (c : ProviderConfig) :
    (configureProviderRun reg n c).2 = expectedConfigErr reg n c := by
  unfold configureProviderRun expectedConfigErr
  cases reg.providers.find? (fun q => q.1 == n) with
  | none => rfl
  | some q => rfl

theorem initProvider_fst (p : Provider) (c : ProviderConfig) :
    (initProvider p c).1 = { p with config := c } := by
  unfold initProvider
  by_cases h : p.requiresApiKey && !(strTruthy c.apiKey) <;> simp [h]

theorem find?_key_update (l : List (String × Provider)) (n' : String) (p' : Provider)
    (n : String) :
    (l.map (fun w => if w.1 == n' then (n', p') else w)).find? (fun w => w.1 == n)
      = (l.find? (fun w => w.1 == n)).map (fun w => if w.1 == n' then (n', p') else w) := by
  rw [List.find?_map]
  have hpred : ((fun w : String × Provider => w.1 == n)
      ∘ fun w => if w.1 == n' then (n', p') else w) = fun w : String × Provider => w.1 == n := by
    funext w
    by_cases hw : w.1 == n'
    · have hw' : w.1 = n' := eq_of_beq hw
      simp [hw, hw']
    · have hw' : w.1 ≠ n' := by simpa using hw
      simp [hw, hw']
  rw [hpred]

theorem expectedConfigErr_step (reg : Registry) (n' : String) (c' : ProviderConfig)
    (n : String) (c : ProviderConfig) :
    expectedConfigErr (configureProviderRun reg n' c').1 n c = expectedConfigErr reg n c := by
  unfold configureProviderRun
  cases hf : reg.providers.find? (fun q => q.1 == n') with
  | none => rfl
  | some q =>
    unfold expectedConfigErr
    simp only [find?_key_update]
    cases hg : reg.providers.find? (fun w => w.1 == n) with
    | none => rfl
    | some r =>
      simp only [Option.map_some']
      by_cases hr : r.1 = n'
      · have hfind := List.find?_some hg
        have hrn : r.1 = n := eq_of_beq hfind
        have hnn : n' = n := by
          rw [← hr]
          exact hrn
        subst hnn
        have hqr : q = r := by
          rw [hf] at hg
          exact Option.some.inj hg
        subst hqr
        simp only [hr, beq_self_eq_true, if_true]
        rw [initProvider_fst]
        rfl
      · have hr' : ¬(r.1 == n') = true := by simpa using hr
        simp [hr']

theorem configureProvidersRun_errs_aux (configs : List (String × ProviderConfig)) :
    ∀ (reg : Registry) (acc : List ProviderError),
    (configs.foldl
      (fun acc nc =>
        let step := configureProviderRun acc.1 nc.1 nc.2
        (step.1, acc.2 ++ step.2.toList))
      (reg, acc)).2
    = acc ++ configs.filterMap (fun nc => expectedConfigErr reg nc.1 nc.2) := by
  induction configs with
  | nil => intro reg acc; simp
  | cons nc rest ih =>
      intro reg acc
      rw [List.foldl_cons]
      dsimp only
      rw [ih, configureProviderRun_err]
      simp only [expectedConfigErr_step]
      rw [List.filterMap_cons]
      cases h : expectedConfigErr reg nc.1 nc.2 <;> simp [h]

theorem configureProvidersRun_errors (reg : Registry) (configs : List (String × ProviderConfig)) :
    (configureProvidersRun reg configs).2
      = configs.filterMap (fun nc => expectedConfigErr reg nc.1 nc.2) := by
  unfold configureProvidersRun
  rw [configureProvidersRun_errs_aux]
  simp

theorem runEvalOutcomes_length (cfg : LLMJudgeConfig) (promptText : String)
    (judgeCall : String → Except String CompletionResponse) (modelResults : List ModelResult) :
    (runEvalOutcomes cfg promptText judgeCall modelResults).length
      = (modelResults.filter (fun r => r.response.isSome)).length := by
  simp [runEvalOutcomes]

theorem runEvalOutcomes_getElem? (cfg : LLMJudgeConfig) (promptText : String)
    (judgeCall : String → Except String CompletionResponse) (modelResults : List ModelResult)
    (i : ℕ) :
    (runEvalOutcomes cfg promptText judgeCall modelResults)[i]?
      = ((modelResults.filter (fun r => r.response.isSome))[i]?).map
          (evalOutcome cfg promptText judgeCall) := by
  simp [runEvalOutcomes, List.getElem?_map]

/-- Claim C1: for every non-empty model-id list, `compareModels` returns one
outcome per requested id, in input order: the result has the input's length,
slot `i` is exactly the per-id outcome of `modelIds[i]` (so it depends only on
that id — a failure in one slot cannot change, drop, or truncate any other
slot), and slot `i` carries `modelIds[i]` as its `modelId`. The per-slot
`try/catch` together with `Promise.all` means all calls settle before the
batch returns, successes and failures alike. -/
theorem compareModels_one_outcome_per_id_in_order (reg : Registry) (modelIds : List String)
    (params : CompletionParams) (hne : modelIds ≠ []) :
    (compareModels reg modelIds params).length = modelIds.length ∧
    (∀ i : ℕ, (compareModels reg modelIds params)[i]?
        = (modelIds[i]?).map (compareOutcome reg params)) ∧
    (∀ i : ℕ, ((compareModels reg modelIds params)[i]?).map (fun o => o.modelId)
        = modelIds[i]?) := by
  refine ⟨compareModels_length reg modelIds params,
    fun i => compareModels_getElem? reg modelIds params i, fun i => ?_⟩
  rw [compareModels_getElem?]
  cases h : modelIds[i]? with
  | none => rfl
  | some s => simp [compareOutcome_modelId]

theorem compareModels_one_outcome_per_id_in_order_witness :
    (["m1", "m2", "ghost"] : List String) ≠ [] ∧
    (compareModels testRegistry ["m1", "m2", "ghost"] testParams).length = 3 ∧
    ((compareModels testRegistry ["m1", "m2", "ghost"] testParams)[1]?).map
        (fun o => o.modelId) = some "m2" :=
  ⟨by decide,
    (compareModels_one_outcome_per_id_in_order testRegistry _ testParams (by decide)).1,
    by
      rw [(compareModels_one_outcome_per_id_in_order testRegistry
        ["m1", "m2", "ghost"] testParams (by decide)).2.2 1]
      rfl⟩

/-- Claim C2: an id that no registered provider's catalog contains produces
the `Model not found` failure slot with the relay flag `false` (no
`provider.complete` call is issued for it), and every other slot is still the
per-id outcome of its own id. -/
theorem compareModels_unknown_id_not_found_no_call (reg : Registry) (modelIds : List String)
    (params : CompletionParams) (i : ℕ) (modelId : String)
    (hid : modelIds[i]? = some modelId) (hnf : findModel reg modelId = none) :
    (compareModelsTraced reg modelIds params)[i]?
      = some (⟨modelId, none, some ⟨"Model not found: " ++ modelId, none⟩⟩, false) ∧
    ∀ j : ℕ, (compareModels reg modelIds params)[j]?
      = (modelIds[j]?).map (compareOutcome reg params) := by
  refine ⟨?_, fun j => compareModels_getElem? reg modelIds params j⟩
  rw [compareModelsTraced_getElem?, hid, Option.map_some',
    compareOutcomeTraced_not_found reg params modelId hnf]

theorem compareModels_unknown_id_not_found_no_call_witness :
    (["m1", "ghost"] : List String)[1]? = some "ghost" ∧
    findModel testRegistry "ghost" = none ∧
    (compareModelsTraced testRegistry ["m1", "ghost"] testParams)[1]?
      = some (⟨"ghost", none, some ⟨"Model not found: ghost", none⟩⟩, false) :=
  ⟨by decide, by rfl,
    (compareModels_unknown_id_not_found_no_call testRegistry ["m1", "ghost"] testParams 1 "ghost"
      (by decide) (by rfl)).1⟩

/-- Claim C3 is false on the code: `compareModels` performs no validation at
all. With an empty id list it resolves normally to an empty outcome array
(nothing is thrown), and with a whitespace-only prompt it dispatches the
completion exactly as for any other prompt: the trace flag shows the
completion call for `m1` was issued and a normal success outcome is produced. -/
theorem compareModels_no_validation_counterexample :
    compareModels testRegistry [] blankParams = [] ∧
    (compareModelsTraced testRegistry ["m1"] blankParams).map (fun x => x.2) = [true] ∧
    compareModels testRegistry ["m1"] blankParams = [⟨"m1", some stubResponse, none⟩] := by
  decide

/-- Claim C3 amended: `compareModels` rejects nothing. An empty model-id list
yields the empty outcome array without error, and the prompt's content (in
particular being empty after trimming) is never inspected: a completion call
is issued for an id exactly when the registry resolves it, for every params
value. -/
theorem compareModels_accepts_empty_and_blank (reg : Registry) (params : CompletionParams)
    (modelIds : List String) (i : ℕ) (modelId : String) (hid : modelIds[i]? = some modelId) :
    compareModels reg [] params = [] ∧
    ((compareModelsTraced reg modelIds params)[i]?).map (fun x => x.2)
      = some (findModel reg modelId).isSome := by
  refine ⟨rfl, ?_⟩
  rw [compareModelsTraced_getElem?, hid, Option.map_some', Option.map_some',
    compareOutcomeTraced_snd]

theorem compareModels_accepts_empty_and_blank_witness :
    (["m1"] : List String)[0]? = some "m1" ∧
    compareModels testRegistry [] blankParams = [] ∧
    ((compareModelsTraced testRegistry ["m1"] blankParams)[0]?).map (fun x => x.2)
      = some (findModel testRegistry "m1").isSome :=
  ⟨by decide,
    (compareModels_accepts_empty_and_blank testRegistry blankParams ["m1"] 0 "m1" (by decide)).1,
    (compareModels_accepts_empty_and_blank testRegistry blankParams ["m1"] 0 "m1" (by decide)).2⟩

/-- Claim C4 is false on the code: there is no `AwaitingResponseError`
anywhere. `handleRunEval` filters out targets whose response is absent before
dispatching, and its final `setEvalResults` keeps only the settled outcomes of
the responding targets: with two targets of which one lacks a response, the
run produces a single outcome, and the responseless target `m2` has no entry
at all in the final result set. -/
theorem runEval_missing_response_dropped_counterexample :
    (runEvalOutcomes judgeCfg "prompt" judgeOk [targetWith, targetWithout]).length = 1 ∧
    ∀ e ∈ runEvalFinal judgeCfg [] "prompt" judgeOk [targetWith, targetWithout],
      e.modelId ≠ "m2" := by
  decide

/-- Claim C4 amended: an evaluation run produces exactly one outcome per
target that has a response — slot `i` of the outcome list is the judge
outcome of the `i`-th responding target — while targets without a response
are dropped from the outcome set rather than reported. -/
theorem runEval_outcomes_only_for_responding_targets (cfg : LLMJudgeConfig)
    (promptText : String) (judgeCall : String → Except String CompletionResponse)
    (modelResults : List ModelResult) :
    (runEvalOutcomes cfg promptText judgeCall modelResults).length
      = (modelResults.filter (fun r => r.response.isSome)).length ∧
    ∀ i : ℕ, (runEvalOutcomes cfg promptText judgeCall modelResults)[i]?
      = ((modelResults.filter (fun r => r.response.isSome))[i]?).map
          (evalOutcome cfg promptText judgeCall) :=
  ⟨runEvalOutcomes_length cfg promptText judgeCall modelResults,
    runEvalOutcomes_getElem? cfg promptText judgeCall modelResults⟩

/-- Claim C5 is false on the code: `configureProviders` awaits the per-entry
configurations with `Promise.all`, which propagates only the first rejection.
With both providers failing, two individual errors are produced but the batch
raises exactly the Anthropic one; a batch in which OpenAI succeeds raises the
very same error — so the raised error carries no information about the other
failure and is not an aggregate. The configuration attempts themselves are
independent: even in the all-failing batch, both providers' stored configs
were replaced (the old API keys are gone). -/
theorem configureProviders_first_error_only_counterexample :
    (configureProvidersRun regABold cfgsBothBad).2.length = 2 ∧
    (configureProvidersRun regABold cfgsOneBad).2.length = 1 ∧
    configureProvidersRaised regABold cfgsBothBad
      = configureProvidersRaised regABold cfgsOneBad ∧
    configureProvidersRaised regABold cfgsBothBad
      = some ⟨"API key is required for Anthropic", none⟩ ∧
    ((configureProvidersRun regABold cfgsBothBad).1.providers.map (fun q => q.2.config))
      = [⟨none, none, none⟩, ⟨none, none, none⟩] := by
  decide

/-- Claim C5 amended: every named configuration is attempted independently —
each entry's failure is exactly what configuring that provider alone against
the original registry would raise, unaffected by the other entries — but on
failure the batch raises only the first entry's error (`Promise.all`), not an
aggregate listing every failure. -/
theorem configureProviders_independent_first_error (reg : Registry)
    (configs : List (String × ProviderConfig)) :
    (configureProvidersRun reg configs).2
      = configs.filterMap (fun nc => expectedConfigErr reg nc.1 nc.2) ∧
    configureProvidersRaised reg configs
      = (configs.filterMap (fun nc => expectedConfigErr reg nc.1 nc.2)).head? := by
  refine ⟨configureProvidersRun_errors reg configs, ?_⟩
  unfold configureProvidersRaised
  rw [configureProvidersRun_errors]

/-- Claim C6: for a model known to the adapter, `estimateCost` is exactly
`inputTokens/1000 * inputPrice + outputTokens/1000 * outputPrice`; in
particular `estimateCost(id, 1000, 1000)` is `inputPrice + outputPrice` and
`estimateCost(id, 0, 0)` is `0`; for an id unknown to the adapter it fails
with the `Model not found` error. -/
theorem estimateCost_formula (p : Provider) (modelId badId : String) (m : ModelMetadata)
    (inputTokens outputTokens : ℚ) (hm : getModel p modelId = some m)
    (hbad : getModel p badId = none) :
    estimateCost p modelId inputTokens outputTokens
      = .ok (inputTokens / 1000 * m.inputCostPer1kTokens
          + outputTokens / 1000 * m.outputCostPer1kTokens) ∧
    estimateCost p modelId 1000 1000
      = .ok (m.inputCostPer1kTokens + m.outputCostPer1kTokens) ∧
    estimateCost p modelId 0 0 = .ok 0 ∧
    estimateCost p badId inputTokens outputTokens
      = .error ⟨"Model not found: " ++ badId, none⟩ := by
  refine ⟨?_, ?_, ?_, ?_⟩
  · unfold estimateCost
    rw [hm]
  · unfold estimateCost
    rw [hm]
    ring_nf
  · unfold estimateCost
    rw [hm]
    ring_nf
  · unfold estimateCost
    rw [hbad]

theorem estimateCost_formula_witness :
    getModel anthropicProvider "claude-3-5-sonnet-20241022" = some claude35Sonnet ∧
    getModel anthropicProvider "ghost-model" = none ∧
    estimateCost anthropicProvider "claude-3-5-sonnet-20241022" 1000 1000
      = .ok (claude35Sonnet.inputCostPer1kTokens + claude35Sonnet.outputCostPer1kTokens) ∧
    estimateCost anthropicProvider "claude-3-5-sonnet-20241022" 0 0 = .ok 0 ∧
    estimateCost anthropicProvider "ghost-model" 10 20
      = .error ⟨"Model not found: ghost-model", none⟩ :=
  ⟨by rfl, by rfl,
    (estimateCost_formula anthropicProvider "claude-3-5-sonnet-20241022" "ghost-model"
      claude35Sonnet 10 20 (by rfl) (by rfl)).2.1,
    (estimateCost_formula anthropicProvider "claude-3-5-sonnet-20241022" "ghost-model"
      claude35Sonnet 10 20 (by rfl) (by rfl)).2.2.1,
    (estimateCost_formula anthropicProvider "claude-3-5-sonnet-20241022" "ghost-model"
      claude35Sonnet 10 20 (by rfl) (by rfl)).2.2.2⟩

/-- Claim C7: building the judge prompt substitutes every placeholder
occurrence of the template, not only the first. For any template given as
literal text interleaved with placeholder tokens (literals that do not
contain `\x7b`, which no placeholder-bearing template does) and any prompt
text without `\x7b`, the two chained global `replace` passes of
`handleRunEval` produce exactly the simultaneous substitution: each
`\x7binput\x7d` token becomes the prompt and each `\x7boutput\x7d` token the
target's response text. -/
theorem buildJudgePrompt_replaces_all_occurrences (segs : List Seg)
    (promptText responseText : String)
    (hs : ∀ s ∈ segs, SegOk s) (hp : '{' ∉ promptText.data) :
    (buildJudgePrompt ⟨renderSegs segs⟩ promptText responseText).data
      = substSegs promptText.data responseText.data segs := by
  unfold buildJudgePrompt
  show replaceAll outputTok responseText.data
      (replaceAll inputTok promptText.data (renderSegs segs)) = _
  rw [replaceAll_input_render segs promptText.data hs]
  exact replaceAll_output_mid segs promptText.data responseText.data hs hp

theorem buildJudgePrompt_replaces_all_occurrences_witness :
    (∀ s ∈ judgeTemplateSegs, SegOk s) ∧
    '{' ∉ ("What is 2+2?" : String).data ∧
    (⟨renderSegs judgeTemplateSegs⟩ : String) = "Q:{input} A:{output} {output}" ∧
    substSegs ("What is 2+2?" : String).data ("4" : String).data judgeTemplateSegs
      = ("Q:What is 2+2? A:4 4" : String).data ∧
    (buildJudgePrompt ⟨renderSegs judgeTemplateSegs⟩ "What is 2+2?" "4").data
      = substSegs ("What is 2+2?" : String).data ("4" : String).data judgeTemplateSegs :=
  ⟨by decide, by decide, by decide, by decide,
    buildJudgePrompt_replaces_all_occurrences judgeTemplateSegs "What is 2+2?" "4"
      (by decide) (by decide)⟩

/-- Claim C8 is false on the code: the `complete` guard of the fetch-backed
Anthropic adapter also consults `process.env`. With an unconfigured adapter
(`isConfigured()` is false) but `ANTHROPIC_API_KEY` present in the
environment, `complete` does not fail with the not-configured error — it
issues the relay call (trace flag `true`) and returns its result. -/
theorem complete_env_override_counterexample :
    isConfigured anthropicProvider = false ∧
    (anthropicComplete envAnthropicSet anthropicProvider relayOk
        "claude-3-5-sonnet-20241022" testParams).2 = true ∧
    (anthropicComplete envAnthropicSet anthropicProvider relayOk
        "claude-3-5-sonnet-20241022" testParams).1.isOk = true := by
  decide

/-- Claim C8 amended: `complete` fails with the not-configured error before
issuing any external call whenever `isConfigured()` is false AND the
adapter's fallback API-key environment variables are unset (falsy):
`ANTHROPIC_API_KEY`/`OPENROUTER_API_KEY` for the Anthropic adapter,
`OPENAI_API_KEY`/`OPENROUTER_API_KEY` for OpenAI, and `OPENROUTER_API_KEY`
for OpenRouter. The trace flag `false` records that the relay was not
reached. -/
theorem complete_not_configured_guard (env : Env) (p : Provider) (relay : RelayFn)
    (modelId : String) (params : CompletionParams) (hcfg : isConfigured p = false) :
    (strTruthy env.anthropicKey = false → strTruthy env.openrouterKey = false →
      anthropicComplete env p relay modelId params
        = (.error ⟨"Anthropic provider is not configured. Please provide an API key.", none⟩,
            false)) ∧
    (strTruthy env.openaiKey = false → strTruthy env.openrouterKey = false →
      openaiComplete env p relay modelId params
        = (.error ⟨"OpenAI provider is not configured. Please provide an API key.", none⟩,
            false)) ∧
    (strTruthy env.openrouterKey = false →
      openrouterComplete env p relay modelId params
        = (.error ⟨"OpenRouter provider is not configured. Please provide an API key.", none⟩,
            false)) := by
  refine ⟨fun h1 h2 => ?_, fun h1 h2 => ?_, fun h1 => ?_⟩
  · unfold anthropicComplete
    rw [hcfg, h1, h2]
    rfl
  · unfold openaiComplete
    rw [hcfg, h1, h2]
    rfl
  · unfold openrouterComplete
    rw [hcfg, h1]
    rfl

theorem complete_not_configured_guard_witness :
    isConfigured anthropicProvider = false ∧
    anthropicComplete ⟨none, none, none⟩ anthropicProvider relayOk
        "claude-3-5-sonnet-20241022" testParams
      = (.error ⟨"Anthropic provider is not configured. Please provide an API key.", none⟩,
          false) :=
  ⟨by decide,
    (complete_not_configured_guard ⟨none, none, none⟩ anthropicProvider relayOk
      "claude-3-5-sonnet-20241022" testParams (by decide)).1 (by decide) (by decide)⟩

/-- Claim C9: `findModel` scans providers in registration order and returns
the first provider's entry whose catalog contains the id: whenever the
registry splits as earlier providers (none of which know the id) followed by
a provider that does, the result is that provider's `{provider, model}` pair.
The embedding is a pure function of the registry, so repeated calls on an
unchanged registry are identical by definition. -/
theorem findModel_first_registration_wins (reg : Registry) (modelId : String)
    (pre post : List (String × Provider)) (n : String) (p : Provider) (m : ModelMetadata)
    (hsplit : reg.providers = pre ++ (n, p) :: post)
    (hpre : ∀ q ∈ pre, getModel q.2 modelId = none)
    (hp : getModel p modelId = some m) :
    findModel reg modelId = some (p, m) := by
  unfold findModel
  rw [hsplit]
  clear hsplit
  induction pre with
  | nil =>
      rw [List.nil_append]
      unfold findModelAux
      rw [hp]
  | cons q pre' ih =>
      have hq : getModel q.2 modelId = none := hpre q (List.mem_cons_self _ _)
      rw [List.cons_append]
      unfold findModelAux
      rw [hq]
      exact ih (fun t ht => hpre t (List.mem_cons_of_mem _ ht))

theorem findModel_first_registration_wins_witness :
    regDup.providers
      = [("succ", provSucc)] ++ ("dupA", provDupFirst) :: [("dupB", provDupSecond)] ∧
    (∀ q ∈ ([("succ", provSucc)] : List (String × Provider)), getModel q.2 "dup" = none) ∧
    getModel provDupFirst "dup"
      = some ⟨"dup", "Dup from A", "dupA", 1000, 0.001, 0.002, true, ⟨false, false, true, none⟩⟩ ∧
    findModel regDup "dup"
      = some (provDupFirst,
          ⟨"dup", "Dup from A", "dupA", 1000, 0.001, 0.002, true, ⟨false, false, true, none⟩⟩) :=
  ⟨rfl, by decide, by rfl,
    findModel_first_registration_wins regDup "dup" [("succ", provSucc)] [("dupB", provDupSecond)]
      "dupA" provDupFirst
      ⟨"dup", "Dup from A", "dupA", 1000, 0.001, 0.002, true, ⟨false, false, true, none⟩⟩
      rfl (by decide) (by rfl)⟩

/-- Claim C10: `initialize` stores the fresh config copy before checking for
the required key, so a failed configuration is not atomic: the call raises
the `API key is required` error, yet afterwards the adapter's config IS the
new (keyless) config — whatever was stored before, an earlier key included,
is gone — and `isConfigured()` is false. -/
theorem init_replaces_config_before_key_check (p : Provider) (c : ProviderConfig)
    (hreq : p.requiresApiKey = true) (hkey : strTruthy c.apiKey = false) :
    (initProvider p c).2 = some ⟨"API key is required for " ++ p.displayName, none⟩ ∧
    (initProvider p c).1.config = c ∧
    isConfigured (initProvider p c).1 = false := by
  unfold initProvider isConfigured
  simp [hreq, hkey]

theorem init_replaces_config_before_key_check_witness :
    anthropicOld.requiresApiKey = true ∧
    strTruthy (ProviderConfig.mk none (some "https://example.test") none).apiKey = false ∧
    isConfigured anthropicOld = true ∧
    (initProvider anthropicOld ⟨none, some "https://example.test", none⟩).2
      = some ⟨"API key is required for Anthropic", none⟩ ∧
    (initProvider anthropicOld ⟨none, some "https://example.test", none⟩).1.config
      = ⟨none, some "https://example.test", none⟩ ∧
    isConfigured (initProvider anthropicOld ⟨none, some "https://example.test", none⟩).1
      = false :=
  ⟨by decide, by decide, by decide,
    (init_replaces_config_before_key_check anthropicOld _ (by decide) (by decide)).1,
    (init_replaces_config_before_key_check anthropicOld _ (by decide) (by decide)).2.1,
    (init_replaces_config_before_key_check anthropicOld _ (by decide) (by decide)).2.2⟩

end PromptModel
